import Mathlib

/-!
Verification of the multi-source scraping coordinator
(`core/scrapers/scraper_manager.py` of the jobhunting repository).

The Python coordinator is shallowly embedded as pure Lean functions over an
explicit `ManagerState`.  Wall-clock fields (timestamps, durations), logging,
the database collaborator and the CV optimizer are not read by any of the
control-flow decisions modelled here and are omitted; the MD5 fingerprint is
modelled by the hashed content itself (MD5 is a fixed deterministic function
of that content, so equality of digests is decided by equality of content).
Adapter calls are modelled by a behaviour function from a scraper name to the
outcome the corresponding future produces.
-/

namespace JobHunting

/-- Job record (`core/database/models.py`, class `Job`), restricted to the
fields the coordinator reads: `title`, `company.name`, the string rendering of
`location`, `url`, and `source`. -/
structure Job where
  title : String
  company : String
  location : String
  url : String
  source : String
deriving DecidableEq, Repr

/-- Python `str.lower()`, modelled as per-character lowercasing of the
underlying character list (the two agree on the ASCII data the coordinator
handles, and this form is structurally recursive, so concrete instances
evaluate inside proofs). -/
def strLower (s : String) : String :=
  String.mk (s.data.map Char.toLower)

/-- `ScraperManager._create_job_hash`: the duplicate fingerprint is
`md5(lowercase(title) + lowercase(company.name) + lowercase(str(location)))`.
We model the digest by its pre-image content (see the file header). -/
def createJobHash (job : Job) : String :=
  strLower job.title ++ strLower job.company ++ strLower job.location

/-- `ScraperManager._deduplicate_jobs`: a job is kept exactly when its hash is
not in the session-level `job_hashes` set and its url is not in the
call-local `seen_urls` set; kept jobs add their hash and url to those sets.
The two Python sets are modelled as lists queried by membership. -/
def deduplicateJobs (jobHashes seenUrls : List String) : List Job → List Job
  | [] => []
  | job :: rest =>
    if createJobHash job ∉ jobHashes ∧ job.url ∉ seenUrls then
      job :: deduplicateJobs (createJobHash job :: jobHashes) (job.url :: seenUrls) rest
    else
      deduplicateJobs jobHashes seenUrls rest

/-- The final `(job_hashes, seen_urls)` state after a `_deduplicate_jobs`
pass; only survivors add to either set. -/
def dedupState (jobHashes seenUrls : List String) : List Job → List String × List String
  | [] => (jobHashes, seenUrls)
  | job :: rest =>
    if createJobHash job ∉ jobHashes ∧ job.url ∉ seenUrls then
      dedupState (createJobHash job :: jobHashes) (job.url :: seenUrls) rest
    else
      dedupState jobHashes seenUrls rest

/-- `JobType` enumeration (`core/database/models.py`). -/
inductive JobType where
  | civil_engineering
  | it_programming
  | freelance
  | digital_marketing
  | other
deriving DecidableEq, Repr

/-- `SearchQuery` (`core/database/models.py`), restricted to the fields the
coordinator reads (`keywords`, `job_types`, `locations`, `remote_only`); the
salary, currency, experience, `sources` and `date_posted` fields are never
read by the selection or execution logic modelled here. -/
structure SearchQuery where
  keywords : String
  job_types : List JobType
  locations : List String
  remote_only : Bool
deriving DecidableEq, Repr

/-- `ScraperConfig` dataclass (`scraper_manager.py`); `config_params` is an
opaque dictionary passed to adapter constructors and is omitted. -/
structure ScraperConfig where
  name : String
  class_name : String
  enabled : Bool
  priority : Int
  max_jobs_per_session : Nat
  rate_limit_requests_per_minute : Nat
  timeout_seconds : Nat
  retry_attempts : Nat
deriving DecidableEq, Repr

/-- A Python `dict` keyed by strings, modelled as an insertion-ordered
association list with unique keys. -/
abbrev StrDict (α : Type) := List (String × α)

/-- Lookup `d[k]` on a Python dict (`none` models a missing key). -/
def dictFind {α : Type} (d : StrDict α) (key : String) : Option α :=
  (d.find? (fun p => p.1 == key)).map Prod.snd

/-- Assignment `d[k] = v` on a Python dict: replaces in place when the key is
present, appends otherwise (Python dicts preserve insertion order). -/
def dictInsert {α : Type} (d : StrDict α) (key : String) (v : α) : StrDict α :=
  match d with
  | [] => [(key, v)]
  | p :: rest =>
    if p.1 == key then (key, v) :: rest else p :: dictInsert rest key v

/-- The registry `self.scraper_configs`. -/
abbrev Registry := StrDict ScraperConfig

/-- The Python test `name in self.scraper_configs and
self.scraper_configs[name].enabled` used throughout the selector. -/
def isEnabledIn (cfgs : Registry) (name : String) : Bool :=
  match dictFind cfgs name with
  | some c => c.enabled
  | none => false

/-- Python substring test `pat in s` (for the nonempty literals used by the
selector). -/
def strContains (s pat : String) : Bool :=
  (s.splitOn pat).length > 1

/-- The always-included core general platforms of `get_scrapers_for_search`
and of the `_select_scrapers` fallback. -/
def coreScrapers : List String := ["LinkedIn", "Indeed"]

/-- Per-job-type scraper names added by `get_scrapers_for_search`; job types
outside the three handled branches add nothing. -/
def jobTypeScrapers : JobType → List String
  | JobType.freelance => ["Upwork", "Freelancer", "Fiverr"]
  | JobType.it_programming => ["Dice", "AngelList", "RemoteOK"]
  | JobType.civil_engineering => ["ENR", "ASCE"]
  | JobType.digital_marketing => []
  | JobType.other => []

/-- Per-location scraper names added by `get_scrapers_for_search`: the
lowercased location is tested for Australian, then UK, then German markers in
an if/elif chain. -/
def locationScrapers (location : String) : List String :=
  let loc := strLower location
  if (["sydney", "melbourne", "australia"].any (fun a => strContains loc a)) then
    ["Seek", "EngineersAustralia"]
  else if (["london", "manchester", "uk", "united kingdom"].any (fun u => strContains loc u)) then
    ["Reed", "Totaljobs"]
  else if (["berlin", "munich", "germany", "deutschland"].any (fun g => strContains loc g)) then
    ["StepStone", "Xing"]
  else []

/-- Remote platforms added when the query is remote-only (or the user profile
prefers remote work). -/
def remoteScrapers : List String := ["RemoteOK", "WeWorkRemotely"]

/-- The order-preserving de-duplication loop at the end of
`get_scrapers_for_search` (`seen` set plus `unique` list). -/
def dedupPreservingOrder (seen : List String) : List String → List String
  | [] => []
  | s :: rest =>
    if s ∈ seen then dedupPreservingOrder seen rest
    else s :: dedupPreservingOrder (s :: seen) rest

/-- `get_scrapers_for_search`, parameterised by the enabled-test so that its
dependence on exactly that part of the registry is explicit.  The Python body
reads the registry only through the test modelled by `isEnabledIn`. -/
def getScrapersCore (enabledOf : String → Bool) (q : SearchQuery)
    (userRemotePref : Bool) : List String :=
  let selected := coreScrapers.filter enabledOf
  let selected := q.job_types.foldl
    (fun acc jt => acc ++ (jobTypeScrapers jt).filter enabledOf) selected
  let selected := q.locations.foldl
    (fun acc location => acc ++ (locationScrapers location).filter enabledOf) selected
  let selected :=
    if q.remote_only || userRemotePref then
      selected ++ remoteScrapers.filter enabledOf
    else selected
  (dedupPreservingOrder [] selected).take 8

/-- `ScraperManager.get_scrapers_for_search(search_query, user_profile)`;
`userRemotePref` models `user_profile.remote_preference == "remote"`. -/
def getScrapersForSearch (cfgs : Registry) (q : SearchQuery)
    (userRemotePref : Bool) : List String :=
  getScrapersCore (isEnabledIn cfgs) q userRemotePref

/-- One `selected[name] = config` step of `_select_scrapers`, guarded by
registration and the enabled flag. -/
def addIfEnabled (cfgs : Registry) (acc : StrDict ScraperConfig)
    (name : String) : StrDict ScraperConfig :=
  match dictFind cfgs name with
  | some c => if c.enabled then dictInsert acc name c else acc
  | none => acc

/-- The final `sorted(selected.items(), key=priority)` of `_select_scrapers`:
Python `sorted` is stable, which insertion sort by `≤` on priority realises. -/
def sortByPriority (l : List (String × ScraperConfig)) :
    List (String × ScraperConfig) :=
  List.insertionSort (fun a b => a.2.priority ≤ b.2.priority) l

/-- `ScraperManager._select_scrapers`: the branch condition is Python's
truthiness test `if specific_scrapers:`, so the caller-supplied specific list
is used only when it is both present and non-empty (an absent or empty list
falls through to smart selection).  The specific branch keeps enabled
registered names only; the smart branch filters the same way, except that
when it yields nothing the core names are added while checking only
registration, not the enabled flag. -/
def selectScrapers (cfgs : Registry) (q : SearchQuery)
    (specific : Option (List String)) : List (String × ScraperConfig) :=
  let selected :=
    match specific with
    | some (name0 :: more) => (name0 :: more).foldl (addIfEnabled cfgs) []
    | _ =>
      let auto := getScrapersForSearch cfgs q false
      let sel := auto.foldl (addIfEnabled cfgs) []
      if sel.isEmpty then
        coreScrapers.foldl
          (fun acc name =>
            match dictFind cfgs name with
            | some c => dictInsert acc name c
            | none => acc) []
      else sel
  sortByPriority selected

/-- `ScrapingStatus` enumeration (`scraper_manager.py`). -/
inductive ScrapingStatus where
  | idle
  | running
  | paused
  | completed
  | failed
  | cancelled
deriving DecidableEq, Repr

/-- `ScrapingSession` dataclass; the wall-clock `start_time` and `end_time`
fields and the embedded `search_query` are omitted (no modelled control flow
reads them). -/
structure ScrapingSession where
  session_id : String
  scrapers_used : List String
  status : ScrapingStatus
  jobs_found : Nat
  jobs_saved : Nat
  duplicates_removed : Nat
  errors : List String
deriving DecidableEq, Repr

/-- One entry of `self.stats["scraper_performance"]`, restricted to the
counters (`success_rate`, `average_duration` and `last_run` are float or
wall-clock fields never read by the modelled control flow). -/
structure ScraperPerformance where
  jobs_scraped : Nat
  error_count : Nat
deriving DecidableEq, Repr

/-- The fresh record `register_scraper` installs for a name. -/
def freshPerformance : ScraperPerformance := ⟨0, 0⟩

/-- The adapter-facing outcome of one submitted scraper future:
`ok jobs` models a list returned by `scrape_jobs`, `raises msg` an exception
raised inside `_run_single_scraper` (caught there), and `timeout msg` an
exception raised by `future.result(timeout=...)` (caught at collection). -/
inductive FetchOutcome where
  | ok (jobs : List Job)
  | raises (msg : String)
  | timeout (msg : String)
deriving DecidableEq, Repr

/-- The jobs a single future contributes to `all_jobs`: a raising scraper
returns `[]` from `_run_single_scraper` and a timed-out future contributes
nothing. -/
def outcomeJobs : FetchOutcome → List Job
  | FetchOutcome.ok jobs => jobs
  | FetchOutcome.raises _ => []
  | FetchOutcome.timeout _ => []

/-- Whether a future outcome is a collection-time (timeout) failure. -/
def isTimeout : FetchOutcome → Bool
  | FetchOutcome.timeout _ => true
  | _ => false

/-- In-place update of one performance record (the Python code mutates
`self.stats["scraper_performance"][name]` of a registered name). -/
def updatePerf (perf : StrDict ScraperPerformance) (name : String)
    (f : ScraperPerformance → ScraperPerformance) : StrDict ScraperPerformance :=
  perf.map (fun p => if p.1 == name then (p.1, f p.2) else p)

/-- Accumulator of `_execute_parallel_scraping`: the merged `all_jobs` list,
the per-source error strings appended to the current session, the performance
dictionary and the global `stats["error_count"]`. -/
structure ExecAccum where
  all_jobs : List Job
  session_errors : List String
  performance : StrDict ScraperPerformance
  global_error_count : Nat
deriving Repr

/-- The effect of collecting one future in `_execute_parallel_scraping`:
a normal return extends `all_jobs` and bumps `jobs_scraped`
(`_run_single_scraper`); an exception raised inside `_run_single_scraper` is
caught there, bumps the per-source and global error counters and returns `[]`
so that nothing reaches the session error list; an exception raised by
`future.result` is caught in the collection loop, which appends
`"name: msg"` to the session errors and bumps the per-source counter. -/
def collectFuture (behavior : String → FetchOutcome) (acc : ExecAccum)
    (name : String) : ExecAccum :=
  match behavior name with
  | FetchOutcome.ok jobs =>
    { acc with
      all_jobs := acc.all_jobs ++ jobs,
      performance := updatePerf acc.performance name
        (fun p => { p with jobs_scraped := p.jobs_scraped + jobs.length }) }
  | FetchOutcome.raises _ =>
    { acc with
      performance := updatePerf acc.performance name
        (fun p => { p with error_count := p.error_count + 1 }),
      global_error_count := acc.global_error_count + 1 }
  | FetchOutcome.timeout msg =>
    { acc with
      session_errors := acc.session_errors ++ [name ++ ": " ++ msg],
      performance := updatePerf acc.performance name
        (fun p => { p with error_count := p.error_count + 1 }) }

/-- `ScraperManager._execute_parallel_scraping`: when `should_stop` is
already set, the submission loop breaks before submitting anything; otherwise
every selected scraper is submitted and the results are collected in
submission order (`should_stop` cannot change during the call in this
single-caller model). -/
def executeParallelScraping (shouldStop : Bool)
    (behavior : String → FetchOutcome)
    (scrapers : List (String × ScraperConfig))
    (perf0 : StrDict ScraperPerformance) (globalErr0 : Nat) : ExecAccum :=
  if shouldStop then
    { all_jobs := [], session_errors := [], performance := perf0,
      global_error_count := globalErr0 }
  else
    scrapers.foldl (fun acc entry => collectFuture behavior acc entry.1)
      { all_jobs := [], session_errors := [], performance := perf0,
        global_error_count := globalErr0 }

/-- The mutable `ScraperManager` state read or written by the modelled
operations.  The executor, callbacks, logger and the external database and CV
collaborators are omitted. -/
structure ManagerState where
  scraper_configs : Registry
  scraper_performance : StrDict ScraperPerformance
  error_count : Nat
  current_session : Option ScrapingSession
  session_history : List ScrapingSession
  job_hashes : List String
  is_running : Bool
  should_stop : Bool
deriving DecidableEq, Repr

/-- A manager as `__init__` leaves it before `_setup_comprehensive_scrapers`
runs: empty registry and history, cleared flags. -/
def initialManagerState : ManagerState :=
  { scraper_configs := [],
    scraper_performance := [],
    error_count := 0,
    current_session := none,
    session_history := [],
    job_hashes := [],
    is_running := false,
    should_stop := false }

/-- `ScraperManager.register_scraper`: unconditionally assigns the config
under its name and installs a fresh performance record, for new and already
registered names alike. -/
def registerScraper (st : ManagerState) (cfg : ScraperConfig) : ManagerState :=
  { st with
    scraper_configs := dictInsert st.scraper_configs cfg.name cfg,
    scraper_performance := dictInsert st.scraper_performance cfg.name freshPerformance }

/-- `ScraperManager.enable_scraper`: flips the flag of a registered name and
merely logs a warning (a no-op here) for an unregistered one. -/
def enableScraper (st : ManagerState) (name : String) (enabled : Bool) : ManagerState :=
  if (dictFind st.scraper_configs name).isSome then
    { st with
      scraper_configs := st.scraper_configs.map
        (fun p => if p.1 == name then (p.1, { p.2 with enabled := enabled }) else p) }
  else st

/-- `ScraperManager.search_jobs` (success path): select scrapers, clear the
session hash set, fan out, deduplicate, record counts, mark the session
completed and append it to the history.  The database save and CV
optimization steps touch only external collaborators and are omitted; the
`except` branch that marks the session failed is reachable only through
exceptions of those collaborators. -/
def searchJobs (st : ManagerState) (q : SearchQuery)
    (specific : Option (List String)) (behavior : String → FetchOutcome) :
    ManagerState × ScrapingSession :=
  let scrapersToUse := selectScrapers st.scraper_configs q specific
  let exec := executeParallelScraping st.should_stop behavior scrapersToUse
    st.scraper_performance st.error_count
  let uniqueJobs := deduplicateJobs [] [] exec.all_jobs
  let finalSession : ScrapingSession :=
    { session_id := "session_" ++ toString st.session_history.length,
      scrapers_used := scrapersToUse.map Prod.fst,
      status := ScrapingStatus.completed,
      jobs_found := exec.all_jobs.length,
      jobs_saved := uniqueJobs.length,
      duplicates_removed := exec.all_jobs.length - uniqueJobs.length,
      errors := exec.session_errors }
  ({ st with
      current_session := some finalSession,
      session_history := st.session_history ++ [finalSession],
      job_hashes := (dedupState [] [] exec.all_jobs).1,
      scraper_performance := exec.performance,
      error_count := exec.global_error_count,
      is_running := false },
    finalSession)

/-- `ScraperManager.pause_scraping`. -/
def pauseScraping (st : ManagerState) : ManagerState :=
  match st.current_session with
  | some s =>
    if s.status = ScrapingStatus.running then
      { st with current_session := some { s with status := ScrapingStatus.paused } }
    else st
  | none => st

/-- `ScraperManager.resume_scraping`. -/
def resumeScraping (st : ManagerState) : ManagerState :=
  match st.current_session with
  | some s =>
    if s.status = ScrapingStatus.paused then
      { st with current_session := some { s with status := ScrapingStatus.running } }
    else st
  | none => st

/-- `ScraperManager.cancel_scraping`: sets `should_stop` and, whenever a
current session exists, unconditionally overwrites its status with
`cancelled`, whatever state the session was in. -/
def cancelScraping (st : ManagerState) : ManagerState :=
  { st with
    should_stop := true,
    current_session := st.current_session.map
      (fun s => { s with status := ScrapingStatus.cancelled }) }

/-- Fixture: an enabled scraper whose adapter always raises. -/
def cfgAlwaysFails : ScraperConfig :=
  ⟨"AlwaysFails", "AlwaysFailsScraper", true, 1, 50, 20, 300, 3⟩

/-- Fixture: an enabled scraper whose adapter always succeeds. -/
def cfgAlwaysWorks : ScraperConfig :=
  ⟨"AlwaysWorks", "AlwaysWorksScraper", true, 2, 50, 20, 300, 3⟩

/-- Fixture: the single job the succeeding adapter returns. -/
def jobFromB : Job :=
  ⟨"Python Developer", "Acme", "Remote", "https://b.example.com/1", "AlwaysWorks"⟩

/-- Fixture: a manager with the failing and the succeeding scraper registered. -/
def stAB : ManagerState :=
  registerScraper (registerScraper initialManagerState cfgAlwaysFails) cfgAlwaysWorks

/-- Fixture: behaviour where `AlwaysFails` raises and every other source
returns exactly `jobFromB`. -/
def behaviorAB : String → FetchOutcome := fun name =>
  if name == "AlwaysFails" then FetchOutcome.raises "boom"
  else FetchOutcome.ok [jobFromB]

/-- Fixture: a query selecting no job-type, location or remote platforms. -/
def plainQuery : SearchQuery := ⟨"anything", [], [], false⟩

/-- Fixture: LinkedIn registered with `enabled = false`. -/
def linkedInDisabled : ScraperConfig :=
  ⟨"LinkedIn", "LinkedInScraper", false, 1, 50, 20, 300, 3⟩

/-- Fixture: a manager whose only registered scraper is the disabled
LinkedIn config, so that smart selection yields no enabled candidate. -/
def stDisabledCore : ManagerState :=
  registerScraper initialManagerState linkedInDisabled

/-- Fixture: the job the disabled scraper would fetch if invoked. -/
def jobFromLinkedIn : Job :=
  ⟨"Engineer", "Contoso", "Berlin", "https://li.example.com/1", "LinkedIn"⟩

/-- Fixture: behaviour where every source returns exactly `jobFromLinkedIn`. -/
def behaviorLI : String → FetchOutcome := fun _ =>
  FetchOutcome.ok [jobFromLinkedIn]

/-- Fixture: a job whose url collides with `jobShadowedUrl` below while its
fingerprint differs. -/
def jobFirstUrl : Job :=
  ⟨"Engineer", "Acme", "Berlin", "https://jobs.example.com/7", "S"⟩

/-- Fixture: same url as `jobFirstUrl`, different title, hence a fresh
fingerprint. -/
def jobShadowedUrl : Job :=
  ⟨"Designer", "Acme", "Berlin", "https://jobs.example.com/7", "S"⟩

/-- Fixture: an already completed session. -/
def completedSession : ScrapingSession :=
  ⟨"session_0", ["LinkedIn"], ScrapingStatus.completed, 3, 2, 1, []⟩

/-- Fixture: a manager holding the completed session. -/
def stCompleted : ManagerState :=
  { initialManagerState with current_session := some completedSession }

/-- Fixture: first registration of the name Gamma. -/
def cfgGammaV1 : ScraperConfig :=
  ⟨"Gamma", "GammaScraper", true, 1, 50, 20, 300, 3⟩

/-- Fixture: conflicting second registration under the same name Gamma. -/
def cfgGammaV2 : ScraperConfig :=
  ⟨"Gamma", "GammaScraperV2", true, 2, 40, 10, 60, 1⟩

/-- Fixture: the job Gamma fetches in its first-session run. -/
def jobFromGamma : Job :=
  ⟨"Surveyor", "Acme", "Sydney", "https://g.example.com/1", "Gamma"⟩

/-- Fixture: behaviour where every source returns exactly `jobFromGamma`. -/
def behaviorGamma : String → FetchOutcome := fun _ =>
  FetchOutcome.ok [jobFromGamma]

/-- Fixture: manager with Gamma registered and one completed search recorded
against it, so its performance record has accumulated a scraped job. -/
def stGammaAfterRun : ManagerState :=
  (searchJobs (registerScraper initialManagerState cfgGammaV1) plainQuery
    (some ["Gamma"]) behaviorGamma).1

/-- Fixture: an ordinary registered, enabled scraper named Indeed. -/
def cfgIndeed : ScraperConfig :=
  ⟨"Indeed", "IndeedScraper", true, 2, 75, 15, 300, 3⟩

/-- Fixture: a manager whose only registered scraper is `cfgIndeed`. -/
def stIndeedOnly : ManagerState :=
  registerScraper initialManagerState cfgIndeed

/-- Fixture: the same Indeed source registered with a different priority and
timeout but the same enabled flag, for the determinism witness. -/
def cfgIndeedAlt : ScraperConfig :=
  ⟨"Indeed", "IndeedScraper", true, 99, 10, 5, 60, 1⟩

/-- Fixture: a manager whose only registered scraper is `cfgIndeedAlt`. -/
def stIndeedAlt : ManagerState :=
  registerScraper initialManagerState cfgIndeedAlt

end JobHunting

namespace JobHunting

theorem deduplicateJobs_length_le (jobHashes seenUrls : List String) (jobs : List Job) :
    (deduplicateJobs jobHashes seenUrls jobs).length ≤ jobs.length := by
  induction jobs generalizing jobHashes seenUrls with
  | nil => simp [deduplicateJobs]
  | cons job rest ih =>
    by_cases h : createJobHash job ∉ jobHashes ∧ job.url ∉ seenUrls
    · simp only [deduplicateJobs, if_pos h, List.length_cons]
      exact Nat.succ_le_succ (ih _ _)
    · simp only [deduplicateJobs, if_neg h, List.length_cons]
      exact Nat.le_succ_of_le (ih _ _)

theorem hash_not_mem_of_mem_deduplicateJobs
    (jobHashes seenUrls : List String) (jobs : List Job) (j : Job)
    (hj : j ∈ deduplicateJobs jobHashes seenUrls jobs) :
    createJobHash j ∉ jobHashes := by
  induction jobs generalizing jobHashes seenUrls with
  | nil => simp [deduplicateJobs] at hj
  | cons job rest ih =>
    by_cases h : createJobHash job ∉ jobHashes ∧ job.url ∉ seenUrls
    · rw [deduplicateJobs, if_pos h] at hj
      rcases List.mem_cons.mp hj with rfl | hmem
      · exact h.1
      · have := ih _ _ hmem
        intro hc
        exact this (List.mem_cons_of_mem _ hc)
    · rw [deduplicateJobs, if_neg h] at hj
      exact ih _ _ hj

theorem deduplicateJobs_pairwise_hash
    (jobHashes seenUrls : List String) (jobs : List Job) :
    (deduplicateJobs jobHashes seenUrls jobs).Pairwise
      (fun a b => createJobHash a ≠ createJobHash b) := by
  induction jobs generalizing jobHashes seenUrls with
  | nil => simp [deduplicateJobs]
  | cons job rest ih =>
    by_cases h : createJobHash job ∉ jobHashes ∧ job.url ∉ seenUrls
    · rw [deduplicateJobs, if_pos h]
      refine List.pairwise_cons.mpr ⟨?_, ih _ _⟩
      intro b hb hc
      have := hash_not_mem_of_mem_deduplicateJobs _ _ _ _ hb
      exact this (by rw [← hc]; exact List.mem_cons_self _ _)
    · rw [deduplicateJobs, if_neg h]
      exact ih _ _

/-- Claim C1: for every list of raw job results passed through one search
invocation, the count identity `jobs_saved + duplicates_removed = jobs_found`
holds on the finished session, and no two survivors of one
`_deduplicate_jobs` call share a fingerprint. -/
theorem C1_dedup_count_identity :
    (∀ (st : ManagerState) (q : SearchQuery) (specific : Option (List String))
      (behavior : String → FetchOutcome),
      (searchJobs st q specific behavior).2.jobs_saved
          + (searchJobs st q specific behavior).2.duplicates_removed
        = (searchJobs st q specific behavior).2.jobs_found)
    ∧ (∀ (jobHashes seenUrls : List String) (jobs : List Job),
      (deduplicateJobs jobHashes seenUrls jobs).Pairwise
        (fun a b => createJobHash a ≠ createJobHash b)) := by
  constructor
  · intro st q specific behavior
    simp only [searchJobs]
    exact Nat.add_sub_cancel' (deduplicateJobs_length_le _ _ _)
  · exact deduplicateJobs_pairwise_hash

/-- Claim C10: cancellation is sticky.  `cancel_scraping` sets `should_stop`;
no modelled operation ever resets it; and a search started with
`should_stop` already set submits no scraper task, so its session completes
with zero jobs found and no errors. -/
theorem C10_cancellation_sticky :
    (∀ st : ManagerState, (cancelScraping st).should_stop = true)
    ∧ (∀ (st : ManagerState) (cfg : ScraperConfig),
        (registerScraper st cfg).should_stop = st.should_stop)
    ∧ (∀ (st : ManagerState) (name : String) (b : Bool),
        (enableScraper st name b).should_stop = st.should_stop)
    ∧ (∀ st : ManagerState, (pauseScraping st).should_stop = st.should_stop)
    ∧ (∀ st : ManagerState, (resumeScraping st).should_stop = st.should_stop)
    ∧ (∀ (st : ManagerState) (q : SearchQuery) (specific : Option (List String))
        (behavior : String → FetchOutcome),
        (searchJobs st q specific behavior).1.should_stop = st.should_stop)
    ∧ (∀ (st : ManagerState) (q : SearchQuery) (specific : Option (List String))
        (behavior : String → FetchOutcome),
        st.should_stop = true →
        (searchJobs st q specific behavior).2.jobs_found = 0
        ∧ (searchJobs st q specific behavior).2.status = ScrapingStatus.completed
        ∧ (searchJobs st q specific behavior).2.errors = []) := by
  refine ⟨fun st => rfl, fun st cfg => rfl, ?_, ?_, ?_, fun st q specific behavior => rfl, ?_⟩
  · intro st name b
    unfold enableScraper
    split <;> rfl
  · intro st
    unfold pauseScraping
    split
    · split <;> rfl
    · rfl
  · intro st
    unfold resumeScraping
    split
    · split <;> rfl
    · rfl
  · intro st q specific behavior h
    simp [searchJobs, executeParallelScraping, h, deduplicateJobs]

/-- Witness for C10 at a concrete cancelled manager. -/
theorem C10_cancellation_sticky_witness :
    (cancelScraping stIndeedOnly).should_stop = true
    ∧ (searchJobs (cancelScraping stIndeedOnly) plainQuery none behaviorLI).2.jobs_found = 0
    ∧ (searchJobs (cancelScraping stIndeedOnly) plainQuery none behaviorLI).2.status
        = ScrapingStatus.completed
    ∧ (searchJobs (cancelScraping stIndeedOnly) plainQuery none behaviorLI).2.errors = [] :=
  ⟨C10_cancellation_sticky.1 stIndeedOnly,
    (C10_cancellation_sticky.2.2.2.2.2.2 (cancelScraping stIndeedOnly) plainQuery none
      behaviorLI (C10_cancellation_sticky.1 stIndeedOnly)).1,
    (C10_cancellation_sticky.2.2.2.2.2.2 (cancelScraping stIndeedOnly) plainQuery none
      behaviorLI (C10_cancellation_sticky.1 stIndeedOnly)).2.1,
    (C10_cancellation_sticky.2.2.2.2.2.2 (cancelScraping stIndeedOnly) plainQuery none
      behaviorLI (C10_cancellation_sticky.1 stIndeedOnly)).2.2⟩

/-- Claim C5 counterexample: cancelling an already completed session raises
nothing and overwrites its recorded status with `cancelled`, so a second
terminal transition neither fails with `InvalidSessionStateError` (no such
error exists in the code) nor leaves the session unchanged. -/
theorem C5_counterexample :
    stCompleted.current_session = some completedSession
    ∧ completedSession.status = ScrapingStatus.completed
    ∧ (cancelScraping stCompleted).current_session
        = some { completedSession with status := ScrapingStatus.cancelled }
    ∧ (cancelScraping stCompleted).current_session ≠ some completedSession := by
  refine ⟨rfl, rfl, rfl, by decide⟩

/-- Claim C5 (amended): the code enforces no terminal-transition discipline.
`cancel_scraping` unconditionally sets `should_stop` and overwrites the
current session's status with `cancelled` whatever state the session is in,
returning normally; it never raises. -/
theorem C5_amended_unchecked_transition (st : ManagerState) (s : ScrapingSession)
    (h : st.current_session = some s) :
    (cancelScraping st).current_session
        = some { s with status := ScrapingStatus.cancelled }
    ∧ (cancelScraping st).should_stop = true
    ∧ (cancelScraping st).session_history = st.session_history := by
  refine ⟨?_, rfl, rfl⟩
  simp [cancelScraping, h]

/-- Witness for the amended C5 at the completed fixture session. -/
theorem C5_amended_witness :
    stCompleted.current_session = some completedSession
    ∧ (cancelScraping stCompleted).current_session
        = some { completedSession with status := ScrapingStatus.cancelled } :=
  ⟨rfl, (C5_amended_unchecked_transition stCompleted completedSession rfl).1⟩

/-- Claim C6 counterexample: after Gamma has accumulated one scraped job,
re-registering the name Gamma with a conflicting config raises nothing (no
`DuplicateSourceError` exists in the code), replaces the original descriptor
and resets the accumulated performance record to a fresh zeroed one. -/
theorem C6_counterexample :
    dictFind stGammaAfterRun.scraper_configs "Gamma" = some cfgGammaV1
    ∧ dictFind stGammaAfterRun.scraper_performance "Gamma"
        = some { jobs_scraped := 1, error_count := 0 }
    ∧ cfgGammaV2 ≠ cfgGammaV1
    ∧ dictFind (registerScraper stGammaAfterRun cfgGammaV2).scraper_configs "Gamma"
        = some cfgGammaV2
    ∧ dictFind (registerScraper stGammaAfterRun cfgGammaV2).scraper_performance "Gamma"
        = some freshPerformance :=
  ⟨rfl, rfl, by decide, rfl, rfl⟩

/-- Keys untouched by `dictInsert` come back unchanged, and the inserted key
maps to the inserted value. -/
theorem dictFind_dictInsert_self {α : Type} (d : StrDict α) (key : String) (v : α) :
    dictFind (dictInsert d key v) key = some v := by
  induction d with
  | nil => simp [dictInsert, dictFind, List.find?]
  | cons p rest ih =>
    by_cases h : (p.1 == key) = true
    · simp [dictInsert, h, dictFind, List.find?]
    · simp only [dictInsert, h, Bool.false_eq_true, if_false, dictFind,
        List.find?_cons, h]
      simpa [dictFind] using ih

/-- Claim C6 (amended): registering a name that is already registered raises
nothing; the stored descriptor is silently replaced by the new config and the
performance record for that name is reset to a fresh zeroed record. -/
theorem C6_amended_silent_replacement (st : ManagerState) (cfg old : ScraperConfig)
    (_h : dictFind st.scraper_configs cfg.name = some old) :
    dictFind (registerScraper st cfg).scraper_configs cfg.name = some cfg
    ∧ dictFind (registerScraper st cfg).scraper_performance cfg.name
        = some freshPerformance :=
  ⟨dictFind_dictInsert_self _ _ _, dictFind_dictInsert_self _ _ _⟩

/-- Witness for the amended C6 at the Gamma fixture. -/
theorem C6_amended_witness :
    dictFind stGammaAfterRun.scraper_configs cfgGammaV2.name = some cfgGammaV1
    ∧ dictFind (registerScraper stGammaAfterRun cfgGammaV2).scraper_configs
        cfgGammaV2.name = some cfgGammaV2
    ∧ dictFind (registerScraper stGammaAfterRun cfgGammaV2).scraper_performance
        cfgGammaV2.name = some freshPerformance :=
  ⟨rfl,
    (C6_amended_silent_replacement stGammaAfterRun cfgGammaV2 cfgGammaV1 rfl).1,
    (C6_amended_silent_replacement stGammaAfterRun cfgGammaV2 cfgGammaV1 rfl).2⟩

/-- Claim C7 counterexample: referencing the unregistered name Ghost raises
nothing (no `UnknownSourceError` exists in the code): enable is a silent
no-op and a caller-supplied specific list silently skips the unknown name. -/
theorem C7_counterexample :
    dictFind stIndeedOnly.scraper_configs "Ghost" = none
    ∧ enableScraper stIndeedOnly "Ghost" true = stIndeedOnly
    ∧ selectScrapers stIndeedOnly.scraper_configs plainQuery
        (some ["Ghost", "Indeed"]) = [("Indeed", cfgIndeed)] :=
  ⟨rfl, rfl, rfl⟩

/-- Folding the specific-list selection over a list is unchanged when the
occurrences of an unregistered name are dropped. -/
theorem foldl_addIfEnabled_filter_unknown (cfgs : Registry) (name : String)
    (h : dictFind cfgs name = none) :
    ∀ (names : List String) (acc : StrDict ScraperConfig),
      names.foldl (addIfEnabled cfgs) acc
        = (names.filter (fun n => !(n == name))).foldl (addIfEnabled cfgs) acc := by
  intro names
  induction names with
  | nil => intro acc; rfl
  | cons n rest ih =>
    intro acc
    by_cases hbe : (n == name) = true
    · have hn : n = name := eq_of_beq hbe
      subst hn
      have hskip : addIfEnabled cfgs acc n = acc := by simp [addIfEnabled, h]
      simp only [List.foldl_cons, List.filter_cons, hbe, Bool.not_true, hskip]
      exact ih acc
    · have hbe2 : (n == name) = false := by
        cases hv : (n == name) with
        | true => exact absurd hv hbe
        | false => rfl
      simp only [List.foldl_cons, List.filter_cons, hbe2, Bool.not_false]
      exact ih _

/-- An unregistered name fails the enabled test. -/
theorem isEnabledIn_eq_false_of_not_found (cfgs : Registry) (name : String)
    (h : dictFind cfgs name = none) : isEnabledIn cfgs name = false := by
  unfold isEnabledIn
  rw [h]

/-- A name whose enabled test fails contributes nothing to the specific or
smart selection fold. -/
theorem addIfEnabled_of_disabled (cfgs : Registry) (acc : StrDict ScraperConfig)
    (name : String) (h : isEnabledIn cfgs name = false) :
    addIfEnabled cfgs acc name = acc := by
  unfold isEnabledIn at h
  unfold addIfEnabled
  cases hf : dictFind cfgs name with
  | none => rfl
  | some c =>
    rw [hf] at h
    have hc : c.enabled = false := h
    simp only [hc, Bool.false_eq_true, if_false]

/-- Folding the enabled-guarded selection over names that are all disabled or
unregistered leaves the accumulator unchanged. -/
theorem foldl_addIfEnabled_of_all_disabled (cfgs : Registry) :
    ∀ (names : List String) (acc : StrDict ScraperConfig),
      (∀ n ∈ names, isEnabledIn cfgs n = false) →
      names.foldl (addIfEnabled cfgs) acc = acc := by
  intro names
  induction names with
  | nil => intro acc _; rfl
  | cons n rest ih =>
    intro acc h
    rw [List.foldl_cons,
      addIfEnabled_of_disabled cfgs acc n (h n (List.mem_cons_self _ _))]
    exact ih acc (fun x hx => h x (List.mem_cons_of_mem _ hx))

/-- Claim C7 (amended): unknown source names are silently ignored, never
surfaced: enabling or disabling an unregistered name is a logged no-op that
leaves the manager unchanged; unknown entries of a caller-supplied specific
list are skipped, so the selection equals that of the list with the unknown
name filtered out whenever the filtered list is still non-empty (an empty
specific list is falsy in Python and is treated as absent, triggering smart
selection instead); and a non-empty specific list consisting solely of
unknown names silently yields an empty selection rather than an error. -/
theorem C7_amended_silent_skip :
    (∀ (st : ManagerState) (name : String) (b : Bool),
      dictFind st.scraper_configs name = none → enableScraper st name b = st)
    ∧ (∀ (cfgs : Registry) (q : SearchQuery) (names : List String) (name : String),
      dictFind cfgs name = none →
      (names.filter (fun n => !(n == name))).isEmpty = false →
      selectScrapers cfgs q (some names)
        = selectScrapers cfgs q (some (names.filter (fun n => !(n == name)))))
    ∧ (∀ (cfgs : Registry) (q : SearchQuery) (name0 : String) (more : List String),
      (∀ n ∈ name0 :: more, dictFind cfgs n = none) →
      selectScrapers cfgs q (some (name0 :: more)) = []) := by
  refine ⟨?_, ?_, ?_⟩
  · intro st name b h
    simp [enableScraper, h]
  · intro cfgs q names name h hne
    cases names with
    | nil => simp at hne
    | cons n t =>
      cases hf : (n :: t).filter (fun x => !(x == name)) with
      | nil => rw [hf] at hne; simp at hne
      | cons m s =>
        simp only [selectScrapers]
        rw [foldl_addIfEnabled_filter_unknown cfgs name h (n :: t) [], hf]
  · intro cfgs q name0 more hall
    simp only [selectScrapers]
    rw [foldl_addIfEnabled_of_all_disabled cfgs (name0 :: more) []
      (fun n hn => isEnabledIn_eq_false_of_not_found cfgs n (hall n hn))]
    rfl

/-- Witness for the amended C7 at the Ghost fixture: the no-op enable, the
filtered-list equality on a non-empty remainder, and the empty selection for
an all-unknown specific list. -/
theorem C7_amended_witness :
    enableScraper stIndeedOnly "Ghost" false = stIndeedOnly
    ∧ selectScrapers stIndeedOnly.scraper_configs plainQuery
        (some ["Ghost", "Indeed"])
      = selectScrapers stIndeedOnly.scraper_configs plainQuery
        (some (["Ghost", "Indeed"].filter (fun n => !(n == "Ghost"))))
    ∧ selectScrapers stIndeedOnly.scraper_configs plainQuery (some ["Ghost"]) = [] :=
  ⟨C7_amended_silent_skip.1 stIndeedOnly "Ghost" false rfl,
    C7_amended_silent_skip.2.1 stIndeedOnly.scraper_configs plainQuery
      ["Ghost", "Indeed"] "Ghost" rfl (by decide),
    C7_amended_silent_skip.2.2 stIndeedOnly.scraper_configs plainQuery
      "Ghost" [] (by decide)⟩

/-- Claim C2 counterexample: with the always-raising adapter `AlwaysFails`
and the always-succeeding `AlwaysWorks` both selected, the session completes
and its unique results come from `AlwaysWorks` alone, but the session error
list is empty: the raised error was swallowed inside `_run_single_scraper`
and never attributed to `AlwaysFails` in the session, contradicting the
claimed `errors=[A's error]` and the claimed populated error list. -/
theorem C2_counterexample :
    behaviorAB "AlwaysFails" = FetchOutcome.raises "boom"
    ∧ (searchJobs stAB plainQuery (some ["AlwaysFails", "AlwaysWorks"])
        behaviorAB).2.status = ScrapingStatus.completed
    ∧ (searchJobs stAB plainQuery (some ["AlwaysFails", "AlwaysWorks"])
        behaviorAB).2.errors = []
    ∧ (searchJobs stAB plainQuery (some ["AlwaysFails", "AlwaysWorks"])
        behaviorAB).2.jobs_found = 1
    ∧ (searchJobs stAB plainQuery (some ["AlwaysFails", "AlwaysWorks"])
        behaviorAB).2.jobs_saved = 1 :=
  ⟨rfl, rfl, rfl, rfl, by decide⟩

/-- The jobs collected by the execution fold are exactly the concatenation of
the successful outcomes, in submission order. -/
theorem exec_foldl_all_jobs (behavior : String → FetchOutcome)
    (scrapers : List (String × ScraperConfig)) (acc : ExecAccum) :
    (scrapers.foldl (fun a e => collectFuture behavior a e.1) acc).all_jobs
      = acc.all_jobs ++ (scrapers.map (fun e => outcomeJobs (behavior e.1))).flatten := by
  induction scrapers generalizing acc with
  | nil => simp
  | cons e rest ih =>
    simp only [List.foldl_cons, List.map_cons, List.flatten, ih]
    cases hb : behavior e.1 <;>
      simp [collectFuture, hb, outcomeJobs, List.append_assoc]

/-- When no collected future raises at `future.result` (no timeout), the
execution fold appends nothing to the session error list. -/
theorem exec_foldl_errors_of_noTimeout (behavior : String → FetchOutcome)
    (scrapers : List (String × ScraperConfig)) (acc : ExecAccum)
    (h : ∀ e ∈ scrapers, isTimeout (behavior e.1) = false) :
    (scrapers.foldl (fun a e => collectFuture behavior a e.1) acc).session_errors
      = acc.session_errors := by
  induction scrapers generalizing acc with
  | nil => rfl
  | cons e rest ih =>
    simp only [List.foldl_cons]
    rw [ih _ (fun x hx => h x (List.mem_cons_of_mem _ hx))]
    have he := h e (List.mem_cons_self _ _)
    cases hb : behavior e.1 with
    | ok jobs => simp [collectFuture, hb]
    | raises msg => simp [collectFuture, hb]
    | timeout msg => simp [isTimeout, hb] at he

/-- Claim C2 (amended): per-source failure isolation holds for status and
results, but not for error attribution.  In a session whose selected sources
either return or raise (no timeouts), the session always completes, its raw
results are exactly the concatenation of the successful adapters' outputs,
and its error list is empty: adapter exceptions are swallowed inside
`_run_single_scraper` (counted in the per-source stats only); only failures
surfacing at `future.result`, i.e. timeouts, are appended to the session
error list.  In particular a session whose sources all raise completes with
zero results and an empty, not populated, session error list. -/
theorem C2_amended_isolation (st : ManagerState) (q : SearchQuery)
    (specific : Option (List String)) (behavior : String → FetchOutcome)
    (hstop : st.should_stop = false)
    (hnt : ∀ e ∈ selectScrapers st.scraper_configs q specific,
      isTimeout (behavior e.1) = false) :
    (searchJobs st q specific behavior).2.status = ScrapingStatus.completed
    ∧ (searchJobs st q specific behavior).2.errors = []
    ∧ (searchJobs st q specific behavior).2.jobs_found
        = ((selectScrapers st.scraper_configs q specific).map
            (fun e => (outcomeJobs (behavior e.1)).length)).sum := by
  refine ⟨rfl, ?_, ?_⟩
  · simp only [searchJobs, executeParallelScraping, hstop, Bool.false_eq_true,
      if_false]
    exact exec_foldl_errors_of_noTimeout behavior _ _ hnt
  · simp only [searchJobs, executeParallelScraping, hstop, Bool.false_eq_true,
      if_false]
    rw [exec_foldl_all_jobs]
    simp only [List.nil_append, List.length_flatten, List.map_map]
    rfl

/-- Witness for the amended C2 at the two-adapter fixture. -/
theorem C2_amended_witness :
    stAB.should_stop = false
    ∧ ((searchJobs stAB plainQuery (some ["AlwaysFails", "AlwaysWorks"])
          behaviorAB).2.status = ScrapingStatus.completed
      ∧ (searchJobs stAB plainQuery (some ["AlwaysFails", "AlwaysWorks"])
          behaviorAB).2.errors = []
      ∧ (searchJobs stAB plainQuery (some ["AlwaysFails", "AlwaysWorks"])
          behaviorAB).2.jobs_found
          = ((selectScrapers stAB.scraper_configs plainQuery
              (some ["AlwaysFails", "AlwaysWorks"])).map
              (fun e => (outcomeJobs (behaviorAB e.1)).length)).sum) :=
  ⟨rfl, C2_amended_isolation stAB plainQuery (some ["AlwaysFails", "AlwaysWorks"])
    behaviorAB rfl (by decide)⟩

/-- Claim C3: evaluation of the code at the failing input.  With LinkedIn
registered but disabled and a query that matches no smart-selection branch,
the scored candidate set is empty and the fallback of `_select_scrapers`
selects the disabled LinkedIn config without consulting its enabled flag; the
search then submits its task and collects its job, so a disabled source is
invoked, violating the enabled-flag invariant the claim states. -/
theorem C3_code_evaluation :
    linkedInDisabled.enabled = false
    ∧ getScrapersForSearch stDisabledCore.scraper_configs plainQuery false = []
    ∧ selectScrapers stDisabledCore.scraper_configs plainQuery none
        = [("LinkedIn", linkedInDisabled)]
    ∧ (searchJobs stDisabledCore plainQuery none behaviorLI).2.scrapers_used
        = ["LinkedIn"]
    ∧ (searchJobs stDisabledCore plainQuery none behaviorLI).2.jobs_found = 1 :=
  ⟨rfl, rfl, rfl, rfl, rfl⟩

/-- The hash component of the dedup state is the survivors' hashes (newest
first) on top of the initial session set. -/
theorem dedupState_fst (jobHashes seenUrls : List String) (jobs : List Job) :
    (dedupState jobHashes seenUrls jobs).1
      = ((deduplicateJobs jobHashes seenUrls jobs).map createJobHash).reverse
          ++ jobHashes := by
  induction jobs generalizing jobHashes seenUrls with
  | nil => simp [dedupState, deduplicateJobs]
  | cons job rest ih =>
    by_cases h : createJobHash job ∉ jobHashes ∧ job.url ∉ seenUrls
    · rw [dedupState, if_pos h, deduplicateJobs, if_pos h, ih]
      simp
    · rw [dedupState, if_neg h, deduplicateJobs, if_neg h, ih]

/-- The url component of the dedup state is the survivors' urls (newest
first) on top of the initial call-local set. -/
theorem dedupState_snd (jobHashes seenUrls : List String) (jobs : List Job) :
    (dedupState jobHashes seenUrls jobs).2
      = ((deduplicateJobs jobHashes seenUrls jobs).map (fun x => x.url)).reverse
          ++ seenUrls := by
  induction jobs generalizing jobHashes seenUrls with
  | nil => simp [dedupState, deduplicateJobs]
  | cons job rest ih =>
    by_cases h : createJobHash job ∉ jobHashes ∧ job.url ∉ seenUrls
    · rw [dedupState, if_pos h, deduplicateJobs, if_pos h, ih]
      simp
    · rw [dedupState, if_neg h, deduplicateJobs, if_neg h, ih]

/-- Deduplication processes an appended list by first processing the prefix
and then the suffix against the state the prefix left behind. -/
theorem deduplicateJobs_append (jobHashes seenUrls : List String)
    (xs ys : List Job) :
    deduplicateJobs jobHashes seenUrls (xs ++ ys)
      = deduplicateJobs jobHashes seenUrls xs
        ++ deduplicateJobs (dedupState jobHashes seenUrls xs).1
            (dedupState jobHashes seenUrls xs).2 ys := by
  induction xs generalizing jobHashes seenUrls with
  | nil => simp [dedupState, deduplicateJobs]
  | cons job rest ih =>
    by_cases h : createJobHash job ∉ jobHashes ∧ job.url ∉ seenUrls
    · rw [List.cons_append, deduplicateJobs, if_pos h, deduplicateJobs, if_pos h,
        dedupState, if_pos h, ih, List.cons_append]
    · rw [List.cons_append, deduplicateJobs, if_neg h, deduplicateJobs, if_neg h,
        dedupState, if_neg h, ih]

/-- Claim C4 counterexample: `jobShadowedUrl` has a fingerprint that has not
occurred earlier, yet it does not survive: its url collides with the earlier
survivor `jobFirstUrl`, so the fingerprint alone does not decide survival. -/
theorem C4_counterexample :
    createJobHash jobShadowedUrl ≠ createJobHash jobFirstUrl
    ∧ deduplicateJobs [] [] [jobFirstUrl, jobShadowedUrl] = [jobFirstUrl] :=
  ⟨by decide, by decide⟩

/-- Claim C4 (amended): the fingerprint is a stable hash of
`lowercase(title) + lowercase(organization) + lowercase(location)`, but it
does not alone decide survival.  A raw result survives exactly when its
fingerprint is neither in the session-level seen set nor equal to an earlier
survivor's fingerprint, and additionally its url is neither in the
call-local seen set nor equal to an earlier survivor's url; the first such
occurrence in input order wins and every later result failing either test is
dropped and counted. -/
theorem C4_amended_fingerprint_and_url (jobHashes seenUrls : List String)
    (pre post : List Job) (j : Job) :
    ((createJobHash j ∉ jobHashes
        ∧ createJobHash j ∉ (deduplicateJobs jobHashes seenUrls pre).map createJobHash
        ∧ j.url ∉ seenUrls
        ∧ j.url ∉ (deduplicateJobs jobHashes seenUrls pre).map (fun x => x.url)) →
      deduplicateJobs jobHashes seenUrls (pre ++ j :: post)
        = deduplicateJobs jobHashes seenUrls pre
          ++ j :: deduplicateJobs
              (createJobHash j :: (dedupState jobHashes seenUrls pre).1)
              (j.url :: (dedupState jobHashes seenUrls pre).2) post)
    ∧ ((createJobHash j ∈ jobHashes
        ∨ createJobHash j ∈ (deduplicateJobs jobHashes seenUrls pre).map createJobHash
        ∨ j.url ∈ seenUrls
        ∨ j.url ∈ (deduplicateJobs jobHashes seenUrls pre).map (fun x => x.url)) →
      deduplicateJobs jobHashes seenUrls (pre ++ j :: post)
        = deduplicateJobs jobHashes seenUrls pre
          ++ deduplicateJobs (dedupState jobHashes seenUrls pre).1
              (dedupState jobHashes seenUrls pre).2 post) := by
  have hmem1 : createJobHash j ∈ (dedupState jobHashes seenUrls pre).1
      ↔ createJobHash j ∈ (deduplicateJobs jobHashes seenUrls pre).map createJobHash
        ∨ createJobHash j ∈ jobHashes := by
    rw [dedupState_fst]
    simp [List.mem_append, List.mem_reverse]
  have hmem2 : j.url ∈ (dedupState jobHashes seenUrls pre).2
      ↔ j.url ∈ (deduplicateJobs jobHashes seenUrls pre).map (fun x => x.url)
        ∨ j.url ∈ seenUrls := by
    rw [dedupState_snd]
    simp [List.mem_append, List.mem_reverse]
  constructor
  · intro h
    rw [deduplicateJobs_append, deduplicateJobs, if_pos ?_]
    constructor
    · intro hc
      rcases hmem1.mp hc with hc1 | hc1
      · exact h.2.1 hc1
      · exact h.1 hc1
    · intro hc
      rcases hmem2.mp hc with hc1 | hc1
      · exact h.2.2.2 hc1
      · exact h.2.2.1 hc1
  · intro h
    rw [deduplicateJobs_append, deduplicateJobs, if_neg ?_]
    intro hkeep
    rcases h with hc | hc | hc | hc
    · exact hkeep.1 (hmem1.mpr (Or.inr hc))
    · exact hkeep.1 (hmem1.mpr (Or.inl hc))
    · exact hkeep.2 (hmem2.mpr (Or.inr hc))
    · exact hkeep.2 (hmem2.mpr (Or.inl hc))

/-- Witness for the amended C4: the first fixture job is kept (fresh
fingerprint and url), and the url-shadowed second job is dropped although its
fingerprint is fresh. -/
theorem C4_amended_witness :
    deduplicateJobs [] [] (([] : List Job) ++ jobFirstUrl :: [jobShadowedUrl])
      = deduplicateJobs [] [] []
        ++ jobFirstUrl :: deduplicateJobs
            (createJobHash jobFirstUrl :: (dedupState [] [] ([] : List Job)).1)
            (jobFirstUrl.url :: (dedupState [] [] ([] : List Job)).2)
            [jobShadowedUrl]
    ∧ deduplicateJobs [] [] ([jobFirstUrl] ++ jobShadowedUrl :: ([] : List Job))
      = deduplicateJobs [] [] [jobFirstUrl]
        ++ deduplicateJobs (dedupState [] [] [jobFirstUrl]).1
            (dedupState [] [] [jobFirstUrl]).2 ([] : List Job) :=
  ⟨(C4_amended_fingerprint_and_url [] [] [] [jobShadowedUrl] jobFirstUrl).1
      (by decide),
    (C4_amended_fingerprint_and_url [] [] [jobFirstUrl] [] jobShadowedUrl).2
      (by decide)⟩

/-- Membership after a dict assignment: every entry was already present or is
the assigned pair. -/
theorem mem_dictInsert {α : Type} (d : StrDict α) (key : String) (v : α)
    (e : String × α) (he : e ∈ dictInsert d key v) : e ∈ d ∨ e = (key, v) := by
  induction d with
  | nil =>
    simp only [dictInsert, List.mem_singleton] at he
    exact Or.inr he
  | cons p rest ih =>
    simp only [dictInsert] at he
    by_cases h : (p.1 == key) = true
    · rw [if_pos h] at he
      rcases List.mem_cons.mp he with rfl | hmem
      · exact Or.inr rfl
      · exact Or.inl (List.mem_cons_of_mem _ hmem)
    · rw [if_neg h] at he
      rcases List.mem_cons.mp he with rfl | hmem
      · exact Or.inl (List.mem_cons_self _ _)
      · rcases ih hmem with hd | hkey
        · exact Or.inl (List.mem_cons_of_mem _ hd)
        · exact Or.inr hkey

/-- Every entry produced by the fallback fold of `_select_scrapers` carries a
name from the folded list (or was already in the accumulator). -/
theorem mem_coreFold (cfgs : Registry) :
    ∀ (names : List String) (acc : StrDict ScraperConfig)
      (e : String × ScraperConfig),
      e ∈ names.foldl (fun acc name =>
        match dictFind cfgs name with
        | some c => dictInsert acc name c
        | none => acc) acc →
      e ∈ acc ∨ e.1 ∈ names := by
  intro names
  induction names with
  | nil => intro acc e he; exact Or.inl he
  | cons n rest ih =>
    intro acc e he
    rw [List.foldl_cons] at he
    cases hf : dictFind cfgs n with
    | none =>
      rw [hf] at he
      rcases ih acc e he with hacc | hrest
      · exact Or.inl hacc
      · exact Or.inr (List.mem_cons_of_mem _ hrest)
    | some c =>
      rw [hf] at he
      rcases ih (dictInsert acc n c) e he with hacc | hrest
      · rcases mem_dictInsert acc n c e hacc with hmem | hpair
        · exact Or.inl hmem
        · exact Or.inr (by rw [hpair]; exact List.mem_cons_self _ _)
      · exact Or.inr (List.mem_cons_of_mem _ hrest)

/-- The stable priority sort is a permutation of its input. -/
theorem sortByPriority_perm (l : List (String × ScraperConfig)) :
    List.Perm (sortByPriority l) l :=
  List.perm_insertionSort _ l

/-- Claim C8: source selection is bounded and has a core fallback.  The smart
selector never returns more than 8 names, and whenever its scored candidate
set contains no enabled registered name, `_select_scrapers` falls back to the
core general-purpose set, so every selected entry carries a core name. -/
theorem C8_bounded_with_core_fallback :
    (∀ (cfgs : Registry) (q : SearchQuery) (userRemotePref : Bool),
      (getScrapersForSearch cfgs q userRemotePref).length ≤ 8)
    ∧ (∀ (cfgs : Registry) (q : SearchQuery),
      (∀ n ∈ getScrapersForSearch cfgs q false, isEnabledIn cfgs n = false) →
      ∀ e ∈ selectScrapers cfgs q none, e.1 ∈ coreScrapers) := by
  constructor
  · intro cfgs q userRemotePref
    simp only [getScrapersForSearch, getScrapersCore, List.length_take]
    exact min_le_left _ _
  · intro cfgs q hall e he
    simp only [selectScrapers] at he
    rw [foldl_addIfEnabled_of_all_disabled cfgs
      (getScrapersForSearch cfgs q false) [] hall] at he
    simp only [List.isEmpty_nil, if_true] at he
    have hmem := (sortByPriority_perm _).mem_iff.mp he
    rcases mem_coreFold cfgs coreScrapers [] e hmem with hnil | hcore
    · exact absurd hnil (List.not_mem_nil _)
    · exact hcore

/-- Witness for C8 at the disabled-core fixture: the fallback selects an
entry and that entry's name is a core name. -/
theorem C8_bounded_with_core_fallback_witness :
    ("LinkedIn", linkedInDisabled)
        ∈ selectScrapers stDisabledCore.scraper_configs plainQuery none
    ∧ ("LinkedIn" : String) ∈ coreScrapers :=
  ⟨by decide,
    C8_bounded_with_core_fallback.2 stDisabledCore.scraper_configs plainQuery
      (by decide) ("LinkedIn", linkedInDisabled) (by decide)⟩

/-- Claim C9: source selection is deterministic and depends only on the
per-name registered-and-enabled observation of the registry (in particular
not on performance state): two registries agreeing on that observation yield
identical ordered selections for the same request, hence repeated calls on
unchanged state return the same list. -/
theorem C9_selection_deterministic (cfgs1 cfgs2 : Registry) (q : SearchQuery)
    (userRemotePref : Bool)
    (h : ∀ name, isEnabledIn cfgs1 name = isEnabledIn cfgs2 name) :
    getScrapersForSearch cfgs1 q userRemotePref
      = getScrapersForSearch cfgs2 q userRemotePref := by
  unfold getScrapersForSearch
  rw [funext h]

/-- Witness for C9: two different registries for Indeed (different priority,
limits and timeout) agree on the enabled observation and produce the same
selection. -/
theorem C9_selection_deterministic_witness :
    stIndeedOnly.scraper_configs ≠ stIndeedAlt.scraper_configs
    ∧ getScrapersForSearch stIndeedOnly.scraper_configs plainQuery false
      = getScrapersForSearch stIndeedAlt.scraper_configs plainQuery false :=
  ⟨by decide,
    C9_selection_deterministic stIndeedOnly.scraper_configs
      stIndeedAlt.scraper_configs plainQuery false (by
        intro name
        cases hn : (("Indeed" : String) == name) with
        | true =>
          simp [isEnabledIn, dictFind, stIndeedOnly, stIndeedAlt,
            registerScraper, initialManagerState, dictInsert, List.find?, hn,
            cfgIndeed, cfgIndeedAlt]
        | false =>
          simp [isEnabledIn, dictFind, stIndeedOnly, stIndeedAlt,
            registerScraper, initialManagerState, dictInsert, List.find?, hn,
            cfgIndeed, cfgIndeedAlt])⟩

end JobHunting
